import Mathlib

/-!
# Verification of the quiz-service core (quizz-node)

Shallow embedding of the quiz lifecycle manager, assessment engine and
result aggregator of `src/api/v1/quiz/controller.js`, together with the
relational store described by the Prisma migration.

Modelling conventions:
* SQL timestamps are `Nat` (milliseconds since epoch); `NULL` timestamps are
  `Option Nat` with `none` for `NULL`.  `new Date(x)` on an already-parsed
  value is the identity; an absent / `null` / unparseable `expires_at` body
  field is `none`.
* Quiz status is a `String`, exactly as the JavaScript handlers pass it
  through (`"DRAFT" | "LIVE" | "EXPIRED" | "DELETED"`); no handler restricts
  the string it receives.
* Each Prisma table is a `List` of records; `SERIAL` primary keys are
  modelled by `freshId` (one more than the maximum id present).
* A handler is a function from the store (plus the authenticated
  `(user_id, role)` and the request parameters) to `Except ApiError`
  of its payload and the updated store.  `prisma.$transaction` is modelled
  by `runMutation`: on `Except.error` the visible store is the pre-call
  store (rollback), on `Except.ok` it is the returned one.
-/

/-- Error taxonomy of the controller responses: 403 authorization failures,
400 validation failures, 404 not-found, and caught storage errors (500). -/
inductive ApiError where
  | authorization (msg : String)
  | validation (msg : String)
  | notFound (msg : String)
  | storage (msg : String)
deriving DecidableEq, Repr

/-- Row of the `users` table (fields the quiz core reads). -/
structure User where
  id : Nat
  role : String
deriving DecidableEq, Repr

/-- Row of the `quizzes` table. -/
structure Quiz where
  id : Nat
  name : String
  creator_id : Nat
  status : String
  expires_at : Option Nat
  created_at : Nat
  updated_at : Option Nat
deriving DecidableEq, Repr

/-- Row of the `questions` table. -/
structure Question where
  id : Nat
  quiz_id : Nat
  question_text : String
deriving DecidableEq, Repr

/-- Row of the `options` table. -/
structure Opt where
  id : Nat
  question_id : Nat
  value : String
  is_correct : Bool
deriving DecidableEq, Repr

/-- Row of the `quiz_assignments` table. -/
structure Assignment where
  id : Nat
  quiz_id : Nat
  user_id : Nat
deriving DecidableEq, Repr

/-- Row of the `quiz_scores` table (an Attempt).  `score_value_obtained`,
`score_total` and `completed_at` are nullable in the migration. -/
structure QuizScore where
  id : Nat
  user_id : Nat
  quiz_id : Nat
  score_value_obtained : Option Nat
  score_total : Option Nat
  attempt_number : Nat
  completed_at : Option Nat
deriving DecidableEq, Repr

/-- The relational store. -/
structure DB where
  users : List User
  quizzes : List Quiz
  questions : List Question
  options : List Opt
  quiz_assignments : List Assignment
  quiz_scores : List QuizScore
deriving DecidableEq, Repr

/-- Fresh `SERIAL` key: one more than the largest id in use. -/
def freshId (ids : List Nat) : Nat :=
  ids.foldr max 0 + 1

/-- `prisma.$transaction` semantics: a failing callback rolls the store
back to its pre-call state; a succeeding one commits the returned store. -/
def runMutation (db : DB) (act : Except ApiError (α × DB)) :
    Except ApiError α × DB :=
  match act with
  | .ok (a, db') => (.ok a, db')
  | .error e => (.error e, db)

/-! ## Assessment engine (`submitQuizAnswers`) -/

/-- One `(question_id, option_id)` pair of the request body. -/
structure AnswerPair where
  question_id : Nat
  option_id : Nat
deriving DecidableEq, Repr

/-- Payload returned to the assessment caller. -/
structure SubmitResult where
  score : Nat
  total : Nat
deriving DecidableEq, Repr

/-- `prisma.options.findMany({where: {is_correct: true, question: {quiz_id}},
select: {question_id, id}})`: all correct-option rows of the quiz's
questions. -/
def correctOptionsFor (db : DB) (quizId : Nat) : List Opt :=
  db.options.filter fun o =>
    o.is_correct && db.questions.any fun q =>
      q.id == o.question_id && q.quiz_id == quizId

/-- The eligibility query of `submitQuizAnswers` (also used by
`getQuizById`): the quiz with this id exists, is `LIVE`, is assigned to the
caller, and `expires_at` is `NULL` or strictly in the future. -/
def quizAttemptable (db : DB) (quizId userId now : Nat) : Bool :=
  db.quizzes.any fun qz =>
    qz.id == quizId && qz.status == "LIVE" &&
    db.quiz_assignments.any (fun a => a.quiz_id == qz.id && a.user_id == userId) &&
    (match qz.expires_at with
     | none => true
     | some t => now < t)

/-- `submitQuizAnswers`: reject empty submissions, check eligibility, score
against the correct-option rows, append one `quiz_scores` row whose
`attempt_number` is one more than the count of existing rows for the same
`(quiz_id, user_id)`. -/
def submitQuizAnswers (db : DB) (userId quizId : Nat)
    (answers : List AnswerPair) (now : Nat) :
    Except ApiError (SubmitResult × DB) :=
  if answers.isEmpty then
    .error (.validation "No answers provided")
  else if !quizAttemptable db quizId userId now then
    .error (.authorization "You are not assigned to this quiz or it has expired")
  else
    let correctOptions := correctOptionsFor db quizId
    let totalQuestions := correctOptions.length
    let correctCount := answers.countP fun a =>
      correctOptions.any fun o =>
        o.question_id == a.question_id && o.id == a.option_id
    let attemptNumber :=
      (db.quiz_scores.filter fun s =>
        s.quiz_id == quizId && s.user_id == userId).length + 1
    let newScore : QuizScore :=
      { id := freshId (db.quiz_scores.map QuizScore.id)
        user_id := userId
        quiz_id := quizId
        score_value_obtained := some correctCount
        score_total := some totalQuestions
        attempt_number := attemptNumber
        completed_at := some now }
    .ok ({ score := correctCount, total := totalQuestions },
         { db with quiz_scores := db.quiz_scores ++ [newScore] })

/-- Spec-side reading of C1's parenthetical: the number of questions of the
quiz that have at least one correct option. -/
def questionsWithCorrectOption (db : DB) (quizId : Nat) : Nat :=
  (db.questions.filter fun q =>
    q.quiz_id == quizId &&
    db.options.any fun o => o.question_id == q.id && o.is_correct).length

/-! ## Lifecycle manager: `createQuiz` -/

/-- Option of the create-quiz body; `opt.is_correct || false` is applied at
the boundary, so the field is a plain `Bool`. -/
structure NewOptInput where
  value : String
  is_correct : Bool
deriving DecidableEq, Repr

/-- Question of the create-quiz body (shape already validated by Joi). -/
structure NewQuestionInput where
  question_text : String
  options : List NewOptInput
deriving DecidableEq, Repr

/-- Nested `questions: {create: ...}` of `prisma.quizzes.create`: append each
question and then its options, drawing fresh `SERIAL` ids. -/
def insertQuestions (db : DB) (quizId : Nat) (qs : List NewQuestionInput) : DB :=
  qs.foldl
    (fun acc q =>
      let qid := freshId (acc.questions.map Question.id)
      let acc1 :=
        { acc with questions := acc.questions ++ [⟨qid, quizId, q.question_text⟩] }
      q.options.foldl
        (fun acc2 o =>
          { acc2 with options :=
              acc2.options ++ [⟨freshId (acc2.options.map Opt.id), qid, o.value, o.is_correct⟩] })
        acc1)
    db

/-- `assignments: {create: ...}` / `quiz_assignments.createMany`: append one
assignment row per user id. -/
def insertAssignments (db : DB) (quizId : Nat) (uids : List Nat) : DB :=
  uids.foldl
    (fun acc uid =>
      { acc with quiz_assignments :=
          acc.quiz_assignments ++
            [⟨freshId (acc.quiz_assignments.map Assignment.id), quizId, uid⟩] })
    db

/-- `createQuiz`: admin check, assigned-user check (`findMany` of the ids
with role `USER`, compared by count), duplicate-name pre-check
(`findUnique({where: {name}})` over all quizzes, deleted or not), then the
nested create with `status = "DRAFT"` and `expires_at = null`. -/
def createQuiz (db : DB) (userId : Nat) (role : String) (name : String)
    (questions : List NewQuestionInput) (assigned_user_ids : List Nat)
    (now : Nat) : Except ApiError (Quiz × DB) :=
  if role != "ADMIN" then
    .error (.authorization "Only admins can create quizzes")
  else
    let users := db.users.filter fun u =>
      assigned_user_ids.contains u.id && u.role == "USER"
    if (users.map User.id).length != assigned_user_ids.length then
      .error (.validation "Some assigned users do not exist or are not USER role")
    else if db.quizzes.any (fun q => q.name == name) then
      .error (.validation "Quiz with this name already exists")
    else
      let quizId := freshId (db.quizzes.map Quiz.id)
      let quiz : Quiz :=
        { id := quizId, name := name, creator_id := userId, status := "DRAFT"
          expires_at := none, created_at := now, updated_at := none }
      let db1 := { db with quizzes := db.quizzes ++ [quiz] }
      let db2 := insertQuestions db1 quizId questions
      let db3 := insertAssignments db2 quizId (users.map User.id)
      .ok (quiz, db3)

/-! ## Lifecycle manager: `updateQuiz` (transactional nested mutation) -/

/-- Option of the update-quiz body. -/
structure UpdateOptInput where
  value : String
  is_correct : Bool
deriving DecidableEq, Repr

/-- Question of the update-quiz body: with an `id` it updates that question
(and replaces its options when `options` is an array); without an `id` it
creates a new question. -/
structure UpdateQuestionInput where
  id : Option Nat
  question_text : Option String
  options : Option (List UpdateOptInput)
deriving DecidableEq, Repr

/-- Update-quiz body; `none` models an absent (or JS-falsy) field. -/
structure UpdateQuizInput where
  name : Option String
  status : Option String
  expires_at : Option Nat
  questions : Option (List UpdateQuestionInput)
  assigned_user_ids : Option (List Nat)
deriving DecidableEq, Repr

/-- One iteration of the question loop inside the update transaction.
`tx.questions.update` on an id that does not exist throws (aborting the
transaction); the new-question branch requires `question_text` (a missing
required field makes the create throw). -/
def upsertQuestion (quizIdNum : Nat) (db : DB) (q : UpdateQuestionInput) :
    Except ApiError DB :=
  match q.id with
  | some qid =>
    if db.questions.any (fun qq => qq.id == qid) then
      let db1 :=
        { db with questions := db.questions.map fun qq =>
            if qq.id == qid then
              { qq with question_text := q.question_text.getD qq.question_text }
            else qq }
      match q.options with
      | some opts =>
        let db2 :=
          { db1 with options := db1.options.filter fun o => o.question_id != qid }
        .ok (opts.foldl
          (fun acc o =>
            { acc with options :=
                acc.options ++
                  [⟨freshId (acc.options.map Opt.id), qid, o.value, o.is_correct⟩] })
          db2)
      | none => .ok db1
    else .error (.storage "Record to update not found")
  | none =>
    match q.question_text with
    | none => .error (.storage "Missing required field question_text")
    | some t =>
      let qid := freshId (db.questions.map Question.id)
      let db1 := { db with questions := db.questions ++ [⟨qid, quizIdNum, t⟩] }
      .ok ((q.options.getD []).foldl
        (fun acc o =>
          { acc with options :=
              acc.options ++
                [⟨freshId (acc.options.map Opt.id), qid, o.value, o.is_correct⟩] })
        db1)

/-- Body of `prisma.$transaction` in `updateQuiz`: scalar patch (throws when
the quiz id does not exist), full assignment replacement when
`assigned_user_ids` is an array (delete-then-createMany, which throws on a
foreign-key violation), then the question upserts. -/
def updateQuizTx (db0 : DB) (quizIdNum : Nat) (inp : UpdateQuizInput)
    (now : Nat) : Except ApiError (Quiz × DB) := do
  match db0.quizzes.find? (fun q => q.id == quizIdNum) with
  | none => .error (.storage "Record to update not found")
  | some q0 =>
    let updatedQuiz : Quiz :=
      { q0 with
        name := inp.name.getD q0.name
        status := inp.status.getD q0.status
        expires_at :=
          match inp.expires_at with
          | some t => some t
          | none => q0.expires_at
        updated_at := some now }
    let db1 :=
      { db0 with quizzes := db0.quizzes.map fun q =>
          if q.id == quizIdNum then updatedQuiz else q }
    let db2 ←
      match inp.assigned_user_ids with
      | none => pure db1
      | some ids =>
        let cleared :=
          { db1 with quiz_assignments :=
              db1.quiz_assignments.filter fun a => a.quiz_id != quizIdNum }
        if ids.all (fun uid => db1.users.any fun u => u.id == uid) then
          pure (insertAssignments cleared quizIdNum ids)
        else .error (.storage "Foreign key constraint failed")
    let db3 ←
      match inp.questions with
      | none => pure db2
      | some qs => qs.foldlM (upsertQuestion quizIdNum) db2
    pure (updatedQuiz, db3)

/-- `updateQuiz`: admin check, then the whole nested mutation inside one
transaction.  Run through `runMutation`, a failure leaves the store at its
pre-call state. -/
def updateQuiz (db : DB) (role : String) (quizId : Nat)
    (inp : UpdateQuizInput) (now : Nat) : Except ApiError (Quiz × DB) :=
  if role != "ADMIN" then
    .error (.authorization "Only admins can update quizzes")
  else updateQuizTx db quizId inp now

/-! ## Lifecycle manager: `deleteQuiz` and `makeQuizLive` -/

/-- `deleteQuiz`: admin check, then set `status = "DELETED"` (and
`updated_at`); note that `expires_at` is not touched. -/
def deleteQuiz (db : DB) (role : String) (quizId : Nat) (now : Nat) :
    Except ApiError (Quiz × DB) :=
  if role != "ADMIN" then
    .error (.authorization "Only admins can delete quizzes")
  else
    match db.quizzes.find? (fun q => q.id == quizId) with
    | none => .error (.storage "Failed to update quiz status")
    | some q0 =>
      let q1 := { q0 with status := "DELETED", updated_at := some now }
      .ok (q1,
        { db with quizzes := db.quizzes.map fun q =>
            if q.id == quizId then { q with status := "DELETED", updated_at := some now }
            else q })

/-- `makeQuizLive`: reject an absent/null/unparseable `expires_at`, then an
absent status, then a non-admin caller; finally update the quiz row to the
requested status, setting `expires_at` to the parsed date when the new
status is `"LIVE"` and to null otherwise.  The current status of the quiz
is never consulted. -/
def makeQuizLive (db : DB) (role : String) (quizId : Nat)
    (expires_at : Option Nat) (status : Option String) (now : Nat) :
    Except ApiError (Quiz × DB) :=
  match expires_at with
  | none => .error (.validation "Expiration date is required to make the quiz live")
  | some e =>
    match status with
    | none => .error (.validation "Status is required LIVE or DRAFT")
    | some s =>
      if role != "ADMIN" then
        .error (.authorization "Only admins can make the quiz live")
      else
        match db.quizzes.find? (fun q => q.id == quizId) with
        | none => .error (.storage "Failed to update quiz")
        | some q0 =>
          let q1 :=
            { q0 with
              status := s
              updated_at := some now
              expires_at := if s == "LIVE" then some e else none }
          .ok (q1,
            { db with quizzes := db.quizzes.map fun q =>
                if q.id == quizId then
                  { q with
                    status := s
                    updated_at := some now
                    expires_at := if s == "LIVE" then some e else none }
                else q })

/-! ## Participant-facing reads -/

/-- Projected option of the participant-facing reads:
`select: {id: true, value: true}` — no `is_correct` field exists in the
projection. -/
structure OptionView where
  id : Nat
  value : String
deriving DecidableEq, Repr

/-- Projected question of the participant-facing reads. -/
structure QuestionView where
  id : Nat
  question_text : String
  options : List OptionView
deriving DecidableEq, Repr

/-- The question/option projection shared by `getAllQuizzes` and
`getQuizById`. -/
def questionViews (db : DB) (quizId : Nat) : List QuestionView :=
  (db.questions.filter fun q => q.quiz_id == quizId).map fun q =>
    { id := q.id
      question_text := q.question_text
      options := (db.options.filter fun o => o.question_id == q.id).map
        fun o => ⟨o.id, o.value⟩ }

/-- The `where` clause shared by the participant-facing reads: assigned to
the caller, `LIVE`, and unexpired. -/
def quizVisible (db : DB) (qz : Quiz) (userId now : Nat) : Bool :=
  db.quiz_assignments.any (fun a => a.quiz_id == qz.id && a.user_id == userId) &&
  qz.status == "LIVE" &&
  (match qz.expires_at with
   | none => true
   | some t => now < t)

/-- Item of the `getAllQuizzes` response. -/
structure QuizListItem where
  id : Nat
  name : String
  expires_at : Option Nat
  status : String
  questions : List QuestionView
deriving DecidableEq, Repr

/-- `getAllQuizzes`: the visible quizzes with the projected questions. -/
def getAllQuizzes (db : DB) (userId now : Nat) : List QuizListItem :=
  (db.quizzes.filter fun qz => quizVisible db qz userId now).map fun qz =>
    { id := qz.id, name := qz.name, expires_at := qz.expires_at
      status := qz.status, questions := questionViews db qz.id }

/-- Payload of the `getQuizById` response. -/
structure QuizDetail where
  id : Nat
  name : String
  expires_at : Option Nat
  questions : List QuestionView
deriving DecidableEq, Repr

/-- `getQuizById`: `findFirst` with the visibility clause, 404 when no row
matches. -/
def getQuizById (db : DB) (userId quizId now : Nat) :
    Except ApiError QuizDetail :=
  match db.quizzes.find? (fun qz => qz.id == quizId && quizVisible db qz userId now) with
  | none => .error (.notFound "Quiz not found, expired, or not accessible")
  | some qz =>
    .ok { id := qz.id, name := qz.name, expires_at := qz.expires_at
          questions := questionViews db qz.id }

/-! ## Result aggregator (`getQuizResults`) -/

/-- One row of the results view. `score_total` is never null in the
response: the code computes `latestScore?.score_total ?? maxScore`. -/
structure ResultRow where
  id : Nat
  name : String
  status : String
  expires_at : Option Nat
  max_score : Nat
  latest_score : Option Nat
  score_total : Nat
  attempt_number : Option Nat
  completed_at : Option Nat
  attempted : Bool
deriving DecidableEq, Repr

/-- Quizzes assigned to the user (no status filter). -/
def assignedQuizzes (db : DB) (userId : Nat) : List Quiz :=
  db.quizzes.filter fun qz =>
    db.quiz_assignments.any fun a => a.quiz_id == qz.id && a.user_id == userId

/-- `quizScores` sub-query: the caller's attempts on the quiz ordered by
`attempt_number` descending, `take: 1`. -/
def latestAttempt (db : DB) (quizId userId : Nat) : Option QuizScore :=
  (List.insertionSort (fun a b : QuizScore => b.attempt_number ≤ a.attempt_number)
    (db.quiz_scores.filter fun s => s.quiz_id == quizId && s.user_id == userId)).head?

/-- The per-quiz row built by the `quizzes.map` of `getQuizResults`. -/
def quizResultRow (db : DB) (userId : Nat) (qz : Quiz) : ResultRow :=
  let maxScore := (db.questions.filter fun q => q.quiz_id == qz.id).length
  let latest := latestAttempt db qz.id userId
  { id := qz.id
    name := qz.name
    status := qz.status
    expires_at := qz.expires_at
    max_score := maxScore
    latest_score := latest.bind QuizScore.score_value_obtained
    score_total := (latest.bind QuizScore.score_total).getD maxScore
    attempt_number := latest.map QuizScore.attempt_number
    completed_at := latest.bind QuizScore.completed_at
    attempted := latest.isSome }

/-- `getQuizResults`: one row per assigned quiz (no status filter), ordered
by `created_at` descending. -/
def getQuizResults (db : DB) (userId : Nat) : List ResultRow :=
  (List.insertionSort (fun a b : Quiz => b.created_at ≤ a.created_at)
    (assignedQuizzes db userId)).map (quizResultRow db userId)

instance : IsTotal Quiz (fun a b => b.created_at ≤ a.created_at) :=
  ⟨fun a b => Nat.le_total b.created_at a.created_at⟩

instance : IsTrans Quiz (fun a b => b.created_at ≤ a.created_at) :=
  ⟨fun _ _ _ h1 h2 => Nat.le_trans h2 h1⟩

/-! ## Concrete stores used as witnesses and counterexamples -/

/-- A store with one `LIVE` quiz of two questions, the correct options being
11 (question 1) and 17 (question 2), assigned to user 5 — the §8 scoring
example of the spec. -/
def exDB : DB :=
  { users := [⟨5, "USER"⟩]
    quizzes := [⟨1, "ex", 9, "LIVE", none, 0, none⟩]
    questions := [⟨1, 1, "q1"⟩, ⟨2, 1, "q2"⟩]
    options := [⟨11, 1, "a", true⟩, ⟨12, 1, "b", false⟩,
                ⟨17, 2, "c", true⟩, ⟨18, 2, "d", false⟩]
    quiz_assignments := [⟨1, 1, 5⟩]
    quiz_scores := [] }

/-- `exDB` after the example submission: one appended attempt. -/
def exDB1 : DB :=
  { exDB with quiz_scores := [⟨1, 5, 1, some 1, some 2, 1, some 0⟩] }

/-- A store whose single question has two correct options (11 and 12). -/
def cex1DB : DB :=
  { users := [⟨5, "USER"⟩]
    quizzes := [⟨1, "cex", 9, "LIVE", none, 0, none⟩]
    questions := [⟨1, 1, "q1"⟩]
    options := [⟨11, 1, "a", true⟩, ⟨12, 1, "b", true⟩]
    quiz_assignments := [⟨1, 1, 5⟩]
    quiz_scores := [] }

/-- A store with one quiz in status `DELETED`. -/
def cex4DB : DB :=
  { users := []
    quizzes := [⟨1, "d", 9, "DELETED", none, 0, none⟩]
    questions := []
    options := []
    quiz_assignments := []
    quiz_scores := [] }

/-- A store with one `LIVE` quiz whose `expires_at` is set. -/
def cex5DB : DB :=
  { users := []
    quizzes := [⟨1, "d", 9, "LIVE", some 50, 0, none⟩]
    questions := []
    options := []
    quiz_assignments := []
    quiz_scores := [] }

/-- A store whose only quiz is `DELETED` and named `A`. -/
def cex6DB : DB :=
  { users := []
    quizzes := [⟨1, "A", 9, "DELETED", none, 0, none⟩]
    questions := []
    options := []
    quiz_assignments := []
    quiz_scores := [] }

/-- A store with an assigned three-question quiz and no attempts. -/
def cex7DB : DB :=
  { users := [⟨5, "USER"⟩]
    quizzes := [⟨1, "r", 9, "LIVE", none, 0, none⟩]
    questions := [⟨1, 1, "q1"⟩, ⟨2, 1, "q2"⟩, ⟨3, 1, "q3"⟩]
    options := []
    quiz_assignments := [⟨1, 1, 5⟩]
    quiz_scores := [] }

/-- The quiz row of `cex7DB`. -/
def cex7Quiz : Quiz := ⟨1, "r", 9, "LIVE", none, 0, none⟩

/-- An update body that patches scalars, replaces the assignment set, and
then fails on a question upsert whose id (99) does not exist. -/
def ex3Inp : UpdateQuizInput :=
  ⟨some "new name", some "DRAFT", none, some [⟨some 99, some "t", none⟩], some [5]⟩

instance {ε α : Type} [DecidableEq ε] [DecidableEq α] : DecidableEq (Except ε α)
  | .ok x, .ok y =>
    if h : x = y then .isTrue (congrArg Except.ok h)
    else .isFalse (fun he => h (Except.ok.inj he))
  | .error x, .error y =>
    if h : x = y then .isTrue (congrArg Except.error h)
    else .isFalse (fun he => h (Except.error.inj he))
  | .ok _, .error _ => .isFalse (fun he => Except.noConfusion he)
  | .error _, .ok _ => .isFalse (fun he => Except.noConfusion he)

/-! ## Claims about the assessment engine -/

/-- Claim C1 (amended): on every successful submission the returned total is
the number of correct-option rows fetched for the quiz's questions, and the
returned score counts exactly the submitted pairs for which a correct
option with matching `question_id` and `option_id` exists; the membership
test evaluated by the code agrees with that existential for every pair. -/
theorem submitQuizAnswers_scoring (db : DB) (userId quizId : Nat)
    (answers : List AnswerPair) (now : Nat) (r : SubmitResult) (db' : DB)
    (a : AnswerPair)
    (h : submitQuizAnswers db userId quizId answers now = .ok (r, db')) :
    r.total = (correctOptionsFor db quizId).length ∧
    r.score = answers.countP (fun p =>
      (correctOptionsFor db quizId).any fun o =>
        o.question_id == p.question_id && o.id == p.option_id) ∧
    (((correctOptionsFor db quizId).any fun o =>
        o.question_id == a.question_id && o.id == a.option_id) = true ↔
      ∃ o ∈ correctOptionsFor db quizId,
        o.question_id = a.question_id ∧ o.id = a.option_id) := by
  unfold submitQuizAnswers at h
  split at h
  · simp at h
  · split at h
    · simp at h
    · simp only [Except.ok.injEq, Prod.mk.injEq] at h
      obtain ⟨h1, h2⟩ := h
      subst h1
      refine ⟨rfl, rfl, ?_⟩
      simp [List.any_eq_true]

/-- Claim C1 witness: the §8 example — two questions with correct options 11
and 17, submission `[(1,11),(2,99)]` — returns `score = 1, total = 2`. -/
theorem submitQuizAnswers_scoring_witness :
    ((⟨1, 2⟩ : SubmitResult)).total = (correctOptionsFor exDB 1).length ∧
    ((⟨1, 2⟩ : SubmitResult)).score =
      ([⟨1, 11⟩, ⟨2, 99⟩] : List AnswerPair).countP (fun p =>
        (correctOptionsFor exDB 1).any fun o =>
          o.question_id == p.question_id && o.id == p.option_id) ∧
    (((correctOptionsFor exDB 1).any fun o =>
        o.question_id == (⟨1, 11⟩ : AnswerPair).question_id &&
          o.id == (⟨1, 11⟩ : AnswerPair).option_id) = true ↔
      ∃ o ∈ correctOptionsFor exDB 1,
        o.question_id = (⟨1, 11⟩ : AnswerPair).question_id ∧
          o.id = (⟨1, 11⟩ : AnswerPair).option_id) :=
  submitQuizAnswers_scoring exDB 5 1 [⟨1, 11⟩, ⟨2, 99⟩] 0 ⟨1, 2⟩ exDB1 ⟨1, 11⟩
    (by decide)

/-- Claim C1 counterexample: when one question has two correct options, the
returned total (2) differs from the number of questions that have at least
one correct option (1), refuting the claim's identification of the two. -/
theorem submitQuizAnswers_total_counterexample :
    submitQuizAnswers cex1DB 5 1 [⟨1, 11⟩] 0 =
      .ok (⟨1, 2⟩,
        { cex1DB with quiz_scores := [⟨1, 5, 1, some 1, some 2, 1, some 0⟩] }) ∧
    questionsWithCorrectOption cex1DB 1 = 1 := by decide

/-- Claim C2: every successful submission appends exactly one new attempt
row, whose `attempt_number` is one more than the count of prior attempts for
the same `(quiz_id, user_id)`, leaving every existing attempt row in place
and unmodified. -/
theorem submitQuizAnswers_attempt_ledger (db : DB) (userId quizId : Nat)
    (answers : List AnswerPair) (now : Nat) (r : SubmitResult) (db' : DB)
    (h : submitQuizAnswers db userId quizId answers now = .ok (r, db')) :
    db'.quiz_scores =
      db.quiz_scores ++
        [{ id := freshId (db.quiz_scores.map QuizScore.id)
           user_id := userId
           quiz_id := quizId
           score_value_obtained := some r.score
           score_total := some r.total
           attempt_number :=
             (db.quiz_scores.filter fun s =>
               s.quiz_id == quizId && s.user_id == userId).length + 1
           completed_at := some now }] ∧
    db'.quiz_scores.length = db.quiz_scores.length + 1 ∧
    db'.quiz_scores.take db.quiz_scores.length = db.quiz_scores := by
  unfold submitQuizAnswers at h
  split at h
  · simp at h
  · split at h
    · simp at h
    · simp only [Except.ok.injEq, Prod.mk.injEq] at h
      obtain ⟨h1, h2⟩ := h
      subst h1
      subst h2
      refine ⟨rfl, by simp, ?_⟩
      exact List.take_left _ _

/-- Claim C2 witness: the example submission on `exDB` appends the single
attempt row with `attempt_number = 1`. -/
theorem submitQuizAnswers_attempt_ledger_witness :
    exDB1.quiz_scores =
      exDB.quiz_scores ++
        [{ id := freshId (exDB.quiz_scores.map QuizScore.id)
           user_id := 5
           quiz_id := 1
           score_value_obtained := some (⟨1, 2⟩ : SubmitResult).score
           score_total := some (⟨1, 2⟩ : SubmitResult).total
           attempt_number :=
             (exDB.quiz_scores.filter fun s =>
               s.quiz_id == 1 && s.user_id == 5).length + 1
           completed_at := some 0 }] ∧
    exDB1.quiz_scores.length = exDB.quiz_scores.length + 1 ∧
    exDB1.quiz_scores.take exDB.quiz_scores.length = exDB.quiz_scores :=
  submitQuizAnswers_attempt_ledger exDB 5 1 [⟨1, 11⟩, ⟨2, 99⟩] 0 ⟨1, 2⟩ exDB1
    (by decide)

/-! ## Claims about the lifecycle manager -/

/-- Claim C3: the whole update — scalar patch, assignment replacement and
question upserts — runs inside one transaction, so when any step fails the
visible quiz, assignment, question and option tables all equal their
pre-call values. -/
theorem updateQuiz_rollback (db : DB) (role : String) (quizId : Nat)
    (inp : UpdateQuizInput) (now : Nat) (e : ApiError)
    (h : (runMutation db (updateQuiz db role quizId inp now)).1 = .error e) :
    (runMutation db (updateQuiz db role quizId inp now)).2.quizzes = db.quizzes ∧
    (runMutation db (updateQuiz db role quizId inp now)).2.quiz_assignments =
      db.quiz_assignments ∧
    (runMutation db (updateQuiz db role quizId inp now)).2.questions =
      db.questions ∧
    (runMutation db (updateQuiz db role quizId inp now)).2.options = db.options := by
  cases hu : updateQuiz db role quizId inp now with
  | ok p =>
    rw [hu] at h
    obtain ⟨a, db2⟩ := p
    simp [runMutation] at h
  | error e2 =>
    simp [runMutation]

/-- Claim C3 witness: an admin update of quiz 1 that patches the name and
status, replaces the assignments, and then hits a non-existent question id
(99) fails, and the visible store equals the pre-call store on every
table. -/
theorem updateQuiz_rollback_witness :
    (runMutation exDB (updateQuiz exDB "ADMIN" 1 ex3Inp 7)).2.quizzes =
      exDB.quizzes ∧
    (runMutation exDB (updateQuiz exDB "ADMIN" 1 ex3Inp 7)).2.quiz_assignments =
      exDB.quiz_assignments ∧
    (runMutation exDB (updateQuiz exDB "ADMIN" 1 ex3Inp 7)).2.questions =
      exDB.questions ∧
    (runMutation exDB (updateQuiz exDB "ADMIN" 1 ex3Inp 7)).2.options =
      exDB.options :=
  updateQuiz_rollback exDB "ADMIN" 1 ex3Inp 7
    (.storage "Record to update not found") (by decide)

/-- Claim C4 counterexample: the only quiz of `cex4DB` has status `DELETED`,
yet an admin transition to `LIVE` succeeds and changes its status — so
`DELETED` is not terminal in the code. -/
theorem deleted_transition_counterexample :
    cex4DB.quizzes.map Quiz.status = ["DELETED"] ∧
    makeQuizLive cex4DB "ADMIN" 1 (some 100) (some "LIVE") 7 =
      .ok (⟨1, "d", 9, "LIVE", some 100, 0, some 7⟩,
        { cex4DB with quizzes := [⟨1, "d", 9, "LIVE", some 100, 0, some 7⟩] }) := by
  decide

/-- Claim C4 (amended): no lifecycle endpoint consults the quiz's current
status, so `DELETED` is not terminal: for every store holding a `DELETED`
quiz, an admin `makeQuizLive` call with a valid expiry and status `LIVE`
succeeds and moves that quiz to status `LIVE`. -/
theorem makeQuizLive_ignores_deleted (db : DB) (quizId e now : Nat)
    (h : (db.quizzes.any fun q => q.id == quizId && q.status == "DELETED") = true) :
    ∃ r db',
      makeQuizLive db "ADMIN" quizId (some e) (some "LIVE") now = .ok (r, db') ∧
      r.status = "LIVE" ∧
      ∀ q ∈ db'.quizzes, q.id = quizId → q.status = "LIVE" := by
  have hfind : (db.quizzes.find? fun q => q.id == quizId).isSome := by
    rw [List.find?_isSome]
    rw [List.any_eq_true] at h
    obtain ⟨q, hq, hqp⟩ := h
    exact ⟨q, hq, by simp_all⟩
  obtain ⟨q0, hq0⟩ := Option.isSome_iff_exists.mp hfind
  have hrun : makeQuizLive db "ADMIN" quizId (some e) (some "LIVE") now =
      .ok ({ q0 with status := "LIVE", updated_at := some now, expires_at := some e },
        { db with quizzes := db.quizzes.map fun q =>
            if q.id == quizId then
              { q with status := "LIVE", updated_at := some now, expires_at := some e }
            else q }) := by
    unfold makeQuizLive
    rw [hq0]
    rfl
  refine ⟨_, _, hrun, rfl, ?_⟩
  intro q hq hid
  simp only [List.mem_map] at hq
  obtain ⟨q1, _, rfl⟩ := hq
  by_cases hc : (q1.id == quizId) = true
  · simp [hc]
  · simp only [hc, if_false, Bool.false_eq_true] at hid ⊢
    exact absurd (by simpa using hid) (by simpa using hc)

/-- Claim C4 witness: on `cex4DB` (whose quiz is `DELETED`) the transition
to `LIVE` succeeds and leaves the quiz `LIVE`. -/
theorem makeQuizLive_ignores_deleted_witness :
    ∃ r db',
      makeQuizLive cex4DB "ADMIN" 1 (some 100) (some "LIVE") 7 = .ok (r, db') ∧
      r.status = "LIVE" ∧
      ∀ q ∈ db'.quizzes, q.id = 1 → q.status = "LIVE" :=
  makeQuizLive_ignores_deleted cex4DB 1 100 7 (by decide)

/-- Claim C5 counterexample: deleting the `LIVE` quiz of `cex5DB` moves its
status to `DELETED` but leaves `expires_at = some 50` — a non-null expiry on
a non-`LIVE` quiz, violating the stated invariant. -/
theorem deleteQuiz_expiry_counterexample :
    deleteQuiz cex5DB "ADMIN" 1 7 =
      .ok (⟨1, "d", 9, "DELETED", some 50, 0, some 7⟩,
        { cex5DB with quizzes := [⟨1, "d", 9, "DELETED", some 50, 0, some 7⟩] }) := by
  decide

/-- Claim C5 (amended): only `makeQuizLive` maintains the expiry discipline
— it sets `expires_at` to the supplied date exactly when the requested
status is `LIVE` and to null otherwise; `deleteQuiz` (and a status-only
`updateQuiz`) leave `expires_at` untouched, so the invariant does not hold
across all operations. -/
theorem makeQuizLive_expiry_follows_status (db : DB) (role : String)
    (quizId e now : Nat) (s : String) (r : Quiz) (db' : DB)
    (h : makeQuizLive db role quizId (some e) (some s) now = .ok (r, db')) :
    r.expires_at = (if s == "LIVE" then some e else none) ∧
    ∀ q ∈ db'.quizzes, q.id = quizId →
      q.expires_at = (if s == "LIVE" then some e else none) := by
  dsimp only [makeQuizLive] at h
  by_cases hrole : (role != "ADMIN") = true
  · rw [if_pos hrole] at h
    simp at h
  · rw [if_neg hrole] at h
    cases hfind : db.quizzes.find? fun q => q.id == quizId with
    | none => rw [hfind] at h; simp at h
    | some q0 =>
      rw [hfind] at h
      simp only [Except.ok.injEq, Prod.mk.injEq] at h
      obtain ⟨h1, h2⟩ := h
      subst h1
      subst h2
      refine ⟨rfl, ?_⟩
      intro q hq hid
      simp only [List.mem_map] at hq
      obtain ⟨q1, _, rfl⟩ := hq
      by_cases hc : (q1.id == quizId) = true
      · simp [hc]
      · simp only [hc, if_false, Bool.false_eq_true] at hid ⊢
        exact absurd (by simpa using hid) (by simpa using hc)

/-- Claim C5 witness: reverting the `DELETED` quiz of `cex4DB` to `DRAFT`
through `makeQuizLive` clears `expires_at`. -/
theorem makeQuizLive_expiry_follows_status_witness :
    (⟨1, "d", 9, "DRAFT", none, 0, some 7⟩ : Quiz).expires_at =
      (if ("DRAFT" : String) == "LIVE" then some 100 else none) ∧
    ∀ q ∈ ({ cex4DB with
        quizzes := [⟨1, "d", 9, "DRAFT", none, 0, some 7⟩] } : DB).quizzes,
      q.id = 1 →
      q.expires_at = (if ("DRAFT" : String) == "LIVE" then some 100 else none) :=
  makeQuizLive_expiry_follows_status cex4DB "ADMIN" 1 100 7 "DRAFT"
    ⟨1, "d", 9, "DRAFT", none, 0, some 7⟩
    { cex4DB with quizzes := [⟨1, "d", 9, "DRAFT", none, 0, some 7⟩] }
    (by decide)

/-- Claim C6 counterexample: `cex6DB` holds only a `DELETED` quiz named
`A`, yet creating a new quiz named `A` fails — the pre-check
(`findUnique({where: {name}})`) does not exclude deleted quizzes, so a name
held only by a `DELETED` quiz still blocks creation. -/
theorem createQuiz_deleted_name_counterexample :
    cex6DB.quizzes.map (fun q => (q.name, q.status)) = [("A", "DELETED")] ∧
    createQuiz cex6DB 9 "ADMIN" "A" [⟨"t1", [⟨"v", true⟩]⟩] [] 7 =
      .error (.validation "Quiz with this name already exists") := by decide

/-- Claim C6 (amended): for an admin whose assigned-user list passes the
role check, creation fails with the duplicate-name error exactly when some
existing quiz of any status — deleted or not — carries the same name
(case-sensitive `==`); the check is a pre-insert lookup, with the store's
unconditional unique index on `name` as the concurrent backstop. -/
theorem createQuiz_name_conflict (db : DB) (userId : Nat) (name : String)
    (questions : List NewQuestionInput) (ids : List Nat) (now : Nat)
    (husers :
      ((db.users.filter fun u => ids.contains u.id && u.role == "USER").map
        User.id).length = ids.length) :
    (createQuiz db userId "ADMIN" name questions ids now =
        .error (.validation "Quiz with this name already exists")) ↔
      (db.quizzes.any fun q => q.name == name) = true := by
  simp only [createQuiz]
  rw [husers]
  simp only [bne_self_eq_false, Bool.false_eq_true, if_false]
  by_cases hn : (db.quizzes.any fun q => q.name == name) = true
  · rw [if_pos hn]
    simp [hn]
  · rw [if_neg hn]
    simp [hn]

/-- Claim C6 witness: on `cex6DB` the duplicate-name failure holds iff some
stored quiz carries the name `A` — and one (deleted) does. -/
theorem createQuiz_name_conflict_witness :
    (createQuiz cex6DB 9 "ADMIN" "A" [⟨"t2", [⟨"w", true⟩]⟩] [] 7 =
        .error (.validation "Quiz with this name already exists")) ↔
      (cex6DB.quizzes.any fun q => q.name == "A") = true :=
  createQuiz_name_conflict cex6DB 9 "A" [⟨"t2", [⟨"w", true⟩]⟩] [] 7 (by decide)

/-! ## Claims about the result aggregator -/

/-- Claim C7 counterexample: for the assigned, never-attempted
three-question quiz of `cex7DB` the produced row carries
`score_total = 3` (the fall-back `max_score`), not null, while
`attempted = false` — refuting the claim that the total is null when no
Attempt exists. -/
theorem getQuizResults_total_counterexample :
    getQuizResults cex7DB 5 =
      [{ id := 1, name := "r", status := "LIVE", expires_at := none
         max_score := 3, latest_score := none, score_total := 3
         attempt_number := none, completed_at := none, attempted := false }] := by
  decide

/-- Claim C7 (amended): the results view yields one row per assigned quiz
regardless of quiz status, ordered most-recently-created first, with
`max_score` the quiz's question count; when no Attempt exists the obtained
score, attempt number and completion time are null and `attempted = false`,
while `score_total` falls back to `max_score` instead of null. -/
theorem getQuizResults_projection (db : DB) (userId : Nat) :
    (∃ qs : List Quiz,
      qs.Perm (assignedQuizzes db userId) ∧
      List.Sorted (fun a b => b.created_at ≤ a.created_at) qs ∧
      getQuizResults db userId = qs.map (quizResultRow db userId)) ∧
    (getQuizResults db userId).length = (assignedQuizzes db userId).length ∧
    ∀ qz : Quiz,
      (db.quiz_scores.filter fun s => s.quiz_id == qz.id && s.user_id == userId)
          = [] →
      (quizResultRow db userId qz).latest_score = none ∧
      (quizResultRow db userId qz).attempt_number = none ∧
      (quizResultRow db userId qz).completed_at = none ∧
      (quizResultRow db userId qz).attempted = false ∧
      (quizResultRow db userId qz).score_total =
        (quizResultRow db userId qz).max_score := by
  refine ⟨⟨List.insertionSort (fun a b : Quiz => b.created_at ≤ a.created_at)
      (assignedQuizzes db userId),
      List.perm_insertionSort _ _, List.sorted_insertionSort _ _, rfl⟩, ?_, ?_⟩
  · simp [getQuizResults, (List.perm_insertionSort
      (fun a b : Quiz => b.created_at ≤ a.created_at)
      (assignedQuizzes db userId)).length_eq]
  · intro qz hq
    simp [quizResultRow, latestAttempt, hq]

/-- Claim C7 witness: the unattempted quiz of `cex7DB` yields null obtained
score, attempt number and completion time, `attempted = false`, and a
`score_total` equal to `max_score`. -/
theorem getQuizResults_projection_witness :
    (quizResultRow cex7DB 5 cex7Quiz).latest_score = none ∧
    (quizResultRow cex7DB 5 cex7Quiz).attempt_number = none ∧
    (quizResultRow cex7DB 5 cex7Quiz).completed_at = none ∧
    (quizResultRow cex7DB 5 cex7Quiz).attempted = false ∧
    (quizResultRow cex7DB 5 cex7Quiz).score_total =
      (quizResultRow cex7DB 5 cex7Quiz).max_score :=
  (getQuizResults_projection cex7DB 5).2.2 cex7Quiz (by decide)

/-! ## Claims about authorization and the LIVE transition -/

/-- Claim C8 counterexample: a non-admin calling `makeQuizLive` without an
expiry receives the validation error, not the authorization error — the
input checks run before the role check, so the error family depends on the
other inputs. -/
theorem nonadmin_validation_first_counterexample :
    makeQuizLive exDB "USER" 1 none (some "LIVE") 0 =
      .error (.validation "Expiration date is required to make the quiz live") := by
  decide

/-- Claim C8 (amended): every lifecycle mutation by a non-admin caller fails
with no state change; `createQuiz`, `updateQuiz` and `deleteQuiz` return the
authorization error whatever the other inputs are, while `makeQuizLive`
returns it only once `expires_at` and `status` have passed validation. -/
theorem nonadmin_mutations_rejected (db : DB) (role : String)
    (userId quizId e now : Nat) (name s : String)
    (questions : List NewQuestionInput) (ids : List Nat)
    (inp : UpdateQuizInput)
    (hrole : role ≠ "ADMIN") :
    createQuiz db userId role name questions ids now =
      .error (.authorization "Only admins can create quizzes") ∧
    runMutation db (updateQuiz db role quizId inp now) =
      (.error (.authorization "Only admins can update quizzes"), db) ∧
    deleteQuiz db role quizId now =
      .error (.authorization "Only admins can delete quizzes") ∧
    makeQuizLive db role quizId (some e) (some s) now =
      .error (.authorization "Only admins can make the quiz live") := by
  have hb : (role != "ADMIN") = true := bne_iff_ne.mpr hrole
  refine ⟨?_, ?_, ?_, ?_⟩
  · simp only [createQuiz, hb, if_true]
  · simp only [updateQuiz, hb, if_true, runMutation]
  · simp only [deleteQuiz, hb, if_true]
  · simp only [makeQuizLive, hb, if_true]

/-- Claim C8 witness: a `USER`-role caller is rejected by all four lifecycle
mutations (with valid `makeQuizLive` inputs), the update leaving the store
untouched. -/
theorem nonadmin_mutations_rejected_witness :
    createQuiz exDB 5 "USER" "n" [] [] 0 =
      .error (.authorization "Only admins can create quizzes") ∧
    runMutation exDB (updateQuiz exDB "USER" 1 ex3Inp 0) =
      (.error (.authorization "Only admins can update quizzes"), exDB) ∧
    deleteQuiz exDB "USER" 1 0 =
      .error (.authorization "Only admins can delete quizzes") ∧
    makeQuizLive exDB "USER" 1 (some 100) (some "LIVE") 0 =
      .error (.authorization "Only admins can make the quiz live") :=
  nonadmin_mutations_rejected exDB "USER" 5 1 100 0 "n" "LIVE" [] [] ex3Inp
    (by decide)

/-- Claim C9 counterexample: an admin transition to `LIVE` with
`expires_at = null` (the claim's "never expires" request) is rejected with
the validation error instead of succeeding. -/
theorem live_null_expiry_counterexample :
    makeQuizLive exDB "ADMIN" 1 none (some "LIVE") 0 =
      .error (.validation "Expiration date is required to make the quiz live") := by
  decide

/-- Claim C9 (amended): `makeQuizLive` rejects every request whose
`expires_at` is absent, null or unparseable with a validation error,
regardless of caller role, target quiz or requested status — there is no
"never expires" path through the LIVE transition. -/
theorem makeQuizLive_requires_expiry (db : DB) (role : String) (quizId : Nat)
    (status : Option String) (now : Nat) :
    makeQuizLive db role quizId none status now =
      .error (.validation "Expiration date is required to make the quiz live") :=
  rfl

/-! ## Claim about the participant-facing projections -/

theorem questionViews_options_sourced (db : DB) (quizId : Nat) :
    ∀ qv ∈ questionViews db quizId, ∀ ov ∈ qv.options,
      ∃ o ∈ db.options, o.question_id = qv.id ∧ ov = ⟨o.id, o.value⟩ := by
  intro qv hqv ov hov
  simp only [questionViews, List.mem_map] at hqv
  obtain ⟨q, _, rfl⟩ := hqv
  simp only [List.mem_map, List.mem_filter] at hov
  obtain ⟨o, ⟨ho, hoq⟩, rfl⟩ := hov
  exact ⟨o, ho, by simpa using hoq, rfl⟩

/-- Claim C10: every option that the participant-facing listing or by-id
read returns is the `⟨id, value⟩` projection of a stored option row — the
projected type has no `is_correct` field, so correct answers are never
revealed before submission. -/
theorem participant_reads_hide_correctness (db : DB) (userId quizId now : Nat) :
    (∀ item ∈ getAllQuizzes db userId now, ∀ qv ∈ item.questions,
        ∀ ov ∈ qv.options, ∃ o ∈ db.options,
          o.question_id = qv.id ∧ ov = ⟨o.id, o.value⟩) ∧
    (∀ d : QuizDetail, getQuizById db userId quizId now = .ok d →
        ∀ qv ∈ d.questions, ∀ ov ∈ qv.options, ∃ o ∈ db.options,
          o.question_id = qv.id ∧ ov = ⟨o.id, o.value⟩) := by
  constructor
  · intro item hitem
    simp only [getAllQuizzes, List.mem_map] at hitem
    obtain ⟨qz, _, rfl⟩ := hitem
    exact questionViews_options_sourced db qz.id
  · intro d hd
    unfold getQuizById at hd
    cases hfind : db.quizzes.find? fun qz =>
        qz.id == quizId && quizVisible db qz userId now with
    | none => rw [hfind] at hd; simp at hd
    | some qz =>
      rw [hfind] at hd
      simp only [Except.ok.injEq] at hd
      subst hd
      exact questionViews_options_sourced db qz.id

/-- Claim C10 witness: option 11 as shown by the listing of `exDB` is the
projection of the stored option row 11 of question 1. -/
theorem participant_reads_hide_correctness_witness :
    ∃ o ∈ exDB.options,
      o.question_id =
        (⟨1, "q1", [⟨11, "a"⟩, ⟨12, "b"⟩]⟩ : QuestionView).id ∧
      (⟨11, "a"⟩ : OptionView) = ⟨o.id, o.value⟩ :=
  (participant_reads_hide_correctness exDB 5 1 0).1
    ⟨1, "ex", none, "LIVE",
      [⟨1, "q1", [⟨11, "a"⟩, ⟨12, "b"⟩]⟩, ⟨2, "q2", [⟨17, "c"⟩, ⟨18, "d"⟩]⟩]⟩
    (by decide)
    ⟨1, "q1", [⟨11, "a"⟩, ⟨12, "b"⟩]⟩ (by decide)
    ⟨11, "a"⟩ (by decide)

